import Mathlib

/-! Verification of the MMAP tile-cache manager (src/game/MotionGenerators/MoveMap.cpp).

The cache state (MMapManager) and its operations are embedded shallowly:
the std::unordered_map members become association lists, file-system and
navigation-engine (Detour) outcomes become an explicit environment of
functions, and machine integers become Nat / Int with explicit reduction
modulo 2^32 where the C++ code converts to uint32.
-/

namespace MMAP

/-- Header of a tile or static-model file, as read by fread in loadMap and
loadGameObject. The struct MmapTileHeader lives in MoveMapSharedDefines.h
(not under src); per spec section 6 its checked fields are, in order, the
magic number, the data-format version, and the payload size in bytes. -/
structure MmapTileHeader where
  mmapMagic : Nat
  mmapVersion : Nat
  size : Nat
deriving DecidableEq

/-- Modelled from the spec: the reserved magic constant MMAP_MAGIC from
MoveMapSharedDefines.h (file not under src). The claims depend only on
whether a header field equals it, never on its value. -/
def MMAP_MAGIC : Nat := 1296912464

/-- Modelled from the spec: the expected data-format version MMAP_VERSION
from MoveMapSharedDefines.h (file not under src). Only equality with it
matters to the claims. -/
def MMAP_VERSION : Nat := 15

/-- MMapManager::packTileID (MoveMap.cpp 181-184): uint32(x << 16 | y) on
int32 arguments. On twos-complement values, x << 16 is multiplication by
2^16, the bitwise or is Int.lor, and the uint32 conversion keeps the value
modulo 2^32 (the low 32 bits; the intermediate int32 truncation of x << 16
does not change the low 32 bits of the bitwise or, so it is dropped here). -/
def packTileID (x y : Int) : Nat :=
  ((Int.lor (x * 65536) y) % 4294967296).toNat

/-- MMapManager::packInstanceId (MoveMap.cpp 186-189):
(uint64(mapId) << 32) | instanceId on uint32 arguments. -/
def packInstanceId (mapId instanceId : Nat) : Nat :=
  (mapId <<< 32) ||| instanceId

/-- Twos-complement conversion uint32 to int32, applied where the uint32
coordinates of IsMMapTileLoaded are passed to packTileID(int32, int32). -/
def toInt32 (n : Nat) : Int :=
  if n % 4294967296 < 2147483648 then ((n % 4294967296 : Nat) : Int)
  else ((n % 4294967296 : Nat) : Int) - 4294967296

/-- One MMapData value (declared in MoveMap.h, not under src; fields exactly
as used by MoveMap.cpp): the owned navigation mesh (an opaque non-null
engine object, here an identifier), mmapLoadedTiles mapping a packed tile
key to the dtTileRef returned by the engine, and navMeshQueries mapping an
instance id to its query handle. The unordered maps become association
lists with unique keys. -/
structure MMapData where
  navMesh : Nat
  mmapLoadedTiles : List (Nat × Nat)
  navMeshQueries : List (Nat × Nat)
deriving DecidableEq

/-- Lookup in an association list, modelling std::unordered_map::find. -/
def findVal {α : Type} : List (Nat × α) → Nat → Option α
  | [], _ => none
  | (k, v) :: rest, key => if k = key then some v else findVal rest key

/-- Remove the entry with the given key, modelling
std::unordered_map::erase(key) on a map with unique keys. -/
def eraseKey {α : Type} : List (Nat × α) → Nat → List (Nat × α)
  | [], _ => []
  | (k, v) :: rest, key => if k = key then rest else (k, v) :: eraseKey rest key

/-- Update in place the value stored under the given key, modelling mutation
of a map entry through a pointer or iterator. -/
def updateKey {α : Type} : List (Nat × α) → Nat → (α → α) → List (Nat × α)
  | [], _, _ => []
  | (k, v) :: rest, key, f =>
      if k = key then (k, f v) :: rest else (k, v) :: updateKey rest key f

/-- MMapManager state as used by MoveMap.cpp: m_loadedMMaps keyed by the
packed (map, instance) key, the global loaded-tile counter m_loadedTiles,
and m_loadedModels mapping a display id to its static-model mesh. The
members are declared in MoveMap.h (not under src); the counter is modelled
from the spec as a natural-number count of resident tiles. -/
structure MMapManagerState where
  loadedMMaps : List (Nat × MMapData)
  loadedTiles : Nat
  loadedModels : List (Nat × Nat)
deriving DecidableEq

/-- Outcome of opening and reading one tile or static-model file: the
header obtained by fread, and whether the payload fread returns 1. -/
structure TileFile where
  header : MmapTileHeader
  readOk : Bool
deriving DecidableEq

/-- The external world consumed by the cache manager, abstracted as
functions of the identifiers involved: whether the per-map parameter file
opens and initializes a mesh (loadMapData), the mesh allocated for a map,
the tile file found for (mapId, x, y, number), the dtTileRef produced by
dtNavMesh::addTile on success, the dtNavMesh::removeTile status per tile
ref, and the static-model file and mesh-init outcome for loadGameObject. -/
structure Env where
  mapParamsOk : Nat → Bool
  meshOf : Nat → Nat
  tileFile : Nat → Int → Int → Nat → Option TileFile
  addTileRef : Nat → Int → Int → Nat → Option Nat
  removeTileOk : Nat → Bool
  goFile : Nat → Option TileFile
  goInit : Nat → Option Nat

/-- External calls made by a load operation, recorded in program order;
used to state that the payload-size field of a rejected header is never used. -/
inductive EngineAction where
  | openMapParams (mapId : Nat)
  | openTileFile (mapId : Nat) (x y : Int) (number : Nat)
  | allocData (size : Nat)
  | freadData (size : Nat)
  | addTile (mesh size : Nat)
  | openGOFile (displayId : Nat)
  | initGOMesh (size : Nat)
deriving DecidableEq

/-- Actions whose argument is the payload-size field of a file header
(dtAlloc of size bytes, fread of size bytes, and the engine calls handed
the size). -/
def usesPayloadSize : EngineAction → Bool
  | .allocData _ => true
  | .freadData _ => true
  | .addTile _ _ => true
  | .initGOMesh _ => true
  | _ => false

/-- MMapManager::loadMapData (MoveMap.cpp 134-179): if the packed key is
already present, succeed. Otherwise open the per-map parameter file and
initialize a mesh from it (both external outcomes folded into
mapParamsOk); on success register a new MMapData with no tiles and no
queries, on failure leave the state unchanged. -/
def loadMapData (env : Env) (s : MMapManagerState) (mapId instanceId : Nat) :
    Bool × MMapManagerState × List EngineAction :=
  if (findVal s.loadedMMaps (packInstanceId mapId instanceId)).isSome then
    (true, s, [])
  else if env.mapParamsOk mapId then
    (true,
     { s with loadedMMaps :=
        (packInstanceId mapId instanceId, ⟨env.meshOf mapId, [], []⟩) :: s.loadedMMaps },
     [EngineAction.openMapParams mapId])
  else
    (false, s, [EngineAction.openMapParams mapId])

/-- Result of loadMap / loadGameObject: the returned bool, the state after
the call, and the external calls made. -/
structure LoadResult where
  ok : Bool
  state : MMapManagerState
  actions : List EngineAction
deriving DecidableEq

/-- MMapManager::loadMap (MoveMap.cpp 208-289): ensure the map data is
loaded; fail if the packed tile key is already present; open the tile
file; reject on wrong magic, then on wrong version; dtAlloc the payload
size and fread it, failing if the read returns 0; hand the payload to
dtNavMesh::addTile, failing on engine rejection; on success record the
returned tile ref under the packed key and increment m_loadedTiles. -/
def loadMap (env : Env) (s : MMapManagerState) (mapId instanceId : Nat)
    (x y : Int) (number : Nat) : LoadResult :=
  match loadMapData env s mapId instanceId with
  | (false, s1, acts) => ⟨false, s1, acts⟩
  | (true, s1, acts) =>
    match findVal s1.loadedMMaps (packInstanceId mapId instanceId) with
    | none => ⟨false, s1, acts⟩
    | some mmap =>
      if (findVal mmap.mmapLoadedTiles (packTileID x y)).isSome then
        ⟨false, s1, acts⟩
      else
        match env.tileFile mapId x y number with
        | none => ⟨false, s1, acts ++ [EngineAction.openTileFile mapId x y number]⟩
        | some tf =>
          if tf.header.mmapMagic ≠ MMAP_MAGIC then
            ⟨false, s1, acts ++ [EngineAction.openTileFile mapId x y number]⟩
          else if tf.header.mmapVersion ≠ MMAP_VERSION then
            ⟨false, s1, acts ++ [EngineAction.openTileFile mapId x y number]⟩
          else if tf.readOk = false then
            ⟨false, s1, acts ++ [EngineAction.openTileFile mapId x y number,
              EngineAction.allocData tf.header.size,
              EngineAction.freadData tf.header.size]⟩
          else
            match env.addTileRef mapId x y number with
            | none =>
              ⟨false, s1, acts ++ [EngineAction.openTileFile mapId x y number,
                EngineAction.allocData tf.header.size,
                EngineAction.freadData tf.header.size,
                EngineAction.addTile mmap.navMesh tf.header.size]⟩
            | some tileRef =>
              let insertTile := fun (mm : MMapData) =>
                { mm with mmapLoadedTiles := (packTileID x y, tileRef) :: mm.mmapLoadedTiles }
              ⟨true,
               { s1 with
                  loadedMMaps := updateKey s1.loadedMMaps
                    (packInstanceId mapId instanceId) insertTile,
                  loadedTiles := s1.loadedTiles + 1 },
               acts ++ [EngineAction.openTileFile mapId x y number,
                EngineAction.allocData tf.header.size,
                EngineAction.freadData tf.header.size,
                EngineAction.addTile mmap.navMesh tf.header.size]⟩

/-- MMapManager::IsMMapTileLoaded (MoveMap.cpp 191-206); its uint32
coordinates are converted to int32 where packTileID is applied. -/
def IsMMapTileLoaded (s : MMapManagerState) (mapId instanceId x y : Nat) : Bool :=
  match findVal s.loadedMMaps (packInstanceId mapId instanceId) with
  | none => false
  | some mmap => (findVal mmap.mmapLoadedTiles (packTileID (toInt32 x) (toInt32 y))).isSome

/-- MMapManager::loadGameObject (MoveMap.cpp 297-362): succeed at once if
the display id is already loaded; open the go file; reject on wrong magic,
then on wrong version; dtAlloc the payload size and fread it, failing if
the read returns 0; initialize a standalone mesh from the buffer, failing
on engine rejection; on success register the mesh under the display id. -/
def loadGameObject (env : Env) (s : MMapManagerState) (displayId : Nat) : LoadResult :=
  if (findVal s.loadedModels displayId).isSome then ⟨true, s, []⟩
  else
    match env.goFile displayId with
    | none => ⟨false, s, [EngineAction.openGOFile displayId]⟩
    | some tf =>
      if tf.header.mmapMagic ≠ MMAP_MAGIC then
        ⟨false, s, [EngineAction.openGOFile displayId]⟩
      else if tf.header.mmapVersion ≠ MMAP_VERSION then
        ⟨false, s, [EngineAction.openGOFile displayId]⟩
      else if tf.readOk = false then
        ⟨false, s, [EngineAction.openGOFile displayId,
          EngineAction.allocData tf.header.size,
          EngineAction.freadData tf.header.size]⟩
      else
        match env.goInit displayId with
        | none =>
          ⟨false, s, [EngineAction.openGOFile displayId,
            EngineAction.allocData tf.header.size,
            EngineAction.freadData tf.header.size,
            EngineAction.initGOMesh tf.header.size]⟩
        | some mesh =>
          ⟨true, { s with loadedModels := (displayId, mesh) :: s.loadedModels },
           [EngineAction.openGOFile displayId,
            EngineAction.allocData tf.header.size,
            EngineAction.freadData tf.header.size,
            EngineAction.initGOMesh tf.header.size]⟩

/-- Outcome of the single-tile MMapManager::unloadMap overload: false with
no state change (map or tile not loaded), true with the updated state, or
the fatal MANGOS_ASSERT(false) reached when the engine rejects the
removal. -/
inductive UnloadOutcome where
  | notLoaded
  | unloaded (s : MMapManagerState)
  | fatalAssert
deriving DecidableEq

/-- MMapManager::unloadMap(mapId, instanceId, x, y) (MoveMap.cpp 364-407):
fail if no MMapData exists for the packed key or the packed tile key is
not resident; otherwise ask the engine to remove the stored tile ref; on
engine failure hit MANGOS_ASSERT(false); on engine success erase the tile
key and decrement m_loadedTiles. -/
def unloadMapTile (env : Env) (s : MMapManagerState) (mapId instanceId : Nat)
    (x y : Int) : UnloadOutcome :=
  match findVal s.loadedMMaps (packInstanceId mapId instanceId) with
  | none => .notLoaded
  | some mmap =>
    match findVal mmap.mmapLoadedTiles (packTileID x y) with
    | none => .notLoaded
    | some tileRef =>
      if env.removeTileOk tileRef then
        let eraseTile := fun (mm : MMapData) =>
          { mm with mmapLoadedTiles := eraseKey mm.mmapLoadedTiles (packTileID x y) }
        .unloaded
          { s with
              loadedMMaps := updateKey s.loadedMMaps (packInstanceId mapId instanceId) eraseTile,
              loadedTiles := s.loadedTiles - 1 }
      else .fatalAssert

/-- The engine tile removals for one MMapData inside
MMapManager::unloadMap(uint32 mapId) (MoveMap.cpp 423-435): each
successful removeTile decrements the counter; a failed one is only
logged. -/
def unloadEntryTiles (env : Env) (tiles : List (Nat × Nat)) (counter : Nat) : Nat :=
  tiles.foldl (fun acc t => if env.removeTileOk t.2 then acc - 1 else acc) counter

/-- Loop of MMapManager::unloadMap(uint32 mapId) (MoveMap.cpp 413-441) over
the entry list: an entry whose full packed key differs from
uint64(mapId) << 32 is skipped; a matching entry has its tiles removed
from the engine, is destroyed and erased, and sets the success flag.
Returns the remaining entries, the new counter, and the flag. -/
def unloadAllLoop (env : Env) (mapId : Nat) :
    List (Nat × MMapData) → Nat → List (Nat × MMapData) × Nat × Bool
  | [], counter => ([], counter, false)
  | (k, mmap) :: rest, counter =>
    if k ≠ mapId <<< 32 then
      let r := unloadAllLoop env mapId rest counter
      ((k, mmap) :: r.1, r.2.1, r.2.2)
    else
      let r := unloadAllLoop env mapId rest (unloadEntryTiles env mmap.mmapLoadedTiles counter)
      (r.1, r.2.1, true)

/-- MMapManager::unloadMap(uint32 mapId) (MoveMap.cpp 409-448). -/
def unloadMapAll (env : Env) (s : MMapManagerState) (mapId : Nat) :
    Bool × MMapManagerState :=
  let r := unloadAllLoop env mapId s.loadedMMaps s.loadedTiles
  (r.2.2, { s with loadedMMaps := r.1, loadedTiles := r.2.1 })

/-- MMapManager::unloadMapInstance (MoveMap.cpp 450-475): fail if no
MMapData exists for the packed key or it has no query handle for the
instance; otherwise free that query handle and erase it from
navMeshQueries. -/
def unloadMapInstance (s : MMapManagerState) (mapId instanceId : Nat) :
    Bool × MMapManagerState :=
  match findVal s.loadedMMaps (packInstanceId mapId instanceId) with
  | none => (false, s)
  | some mmap =>
    if (findVal mmap.navMeshQueries instanceId).isSome then
      let eraseQuery := fun (mm : MMapData) =>
        { mm with navMeshQueries := eraseKey mm.navMeshQueries instanceId }
      (true,
       { s with loadedMMaps := updateKey s.loadedMMaps (packInstanceId mapId instanceId) eraseQuery })
    else (false, s)

/-- Sum of the resident-tile counts of a list of MMapData entries. -/
def sumTileLens (l : List (Nat × MMapData)) : Nat :=
  (l.map (fun p => p.2.mmapLoadedTiles.length)).sum

/-- Total number of resident tiles across all MeshEntries of the cache. -/
def totalTiles (s : MMapManagerState) : Nat := sumTileLens s.loadedMMaps

/-- The bookkeeping invariant of claim C3: the global counter equals the
number of resident tiles across all MeshEntries. -/
def CounterInvariant (s : MMapManagerState) : Prop :=
  s.loadedTiles = totalTiles s

/-- The state an UnloadOutcome leaves behind, the original state when no
transition happened. -/
def unloadOutcomeState (o : UnloadOutcome) (s : MMapManagerState) : MMapManagerState :=
  match o with
  | .unloaded s2 => s2
  | _ => s

/-- Combined resident-tile count of the entries a given packed key matches
in the unloadMap(uint32 mapId) loop. -/
def matchedTiles (l : List (Nat × MMapData)) (key : Nat) : Nat :=
  ((l.filter (fun p => p.1 == key)).map (fun p => p.2.mmapLoadedTiles.length)).sum

/-- An environment in which every external outcome succeeds: every file
exists with a well-formed header, every read succeeds, and the engine
accepts every addTile and removeTile. Used to instantiate witnesses. -/
def envTrue : Env where
  mapParamsOk := fun _ => true
  meshOf := fun _ => 0
  tileFile := fun _ _ _ _ => some ⟨⟨MMAP_MAGIC, MMAP_VERSION, 8⟩, true⟩
  addTileRef := fun _ _ _ _ => some 1
  removeTileOk := fun _ => true
  goFile := fun _ => some ⟨⟨MMAP_MAGIC, MMAP_VERSION, 8⟩, true⟩
  goInit := fun _ => some 2

/-! Helper lemmas about the packings and the association-list operations. -/

/-- High bits of a shifted-or packing recover the first component. -/
theorem shiftLeft_lor_shiftRight (a b k : Nat) (hb : b < 2 ^ k) :
    ((a <<< k) ||| b) >>> k = a := by
  apply Nat.eq_of_testBit_eq
  intro i
  rw [Nat.testBit_shiftRight, Nat.testBit_lor, Nat.testBit_shiftLeft]
  have hbb : b.testBit (k + i) = false :=
    Nat.testBit_eq_false_of_lt
      (lt_of_lt_of_le hb (Nat.pow_le_pow_right (by norm_num) (by omega)))
  have hk : k ≤ k + i := Nat.le_add_right k i
  simp [hbb, hk, Nat.add_sub_cancel_left]

/-- Low bits of a shifted-or packing recover the second component. -/
theorem shiftLeft_lor_mod (a b k : Nat) (hb : b < 2 ^ k) :
    ((a <<< k) ||| b) % 2 ^ k = b := by
  apply Nat.eq_of_testBit_eq
  intro i
  rw [Nat.testBit_mod_two_pow, Nat.testBit_lor, Nat.testBit_shiftLeft]
  by_cases h : i < k
  · have h2 : ¬ k ≤ i := by omega
    simp [h, h2]
  · have hbb : b.testBit i = false :=
      Nat.testBit_eq_false_of_lt
        (lt_of_lt_of_le hb (Nat.pow_le_pow_right (by norm_num) (by omega)))
    simp [h, hbb]

/-- On in-range nonnegative coordinates packTileID is the plain 16-bit
shift-or packing of the natural values. -/
theorem packTileID_ofNat (x y : Nat) (hx : x < 65536) (hy : y < 65536) :
    packTileID (x : Int) (y : Int) = (x <<< 16) ||| y := by
  unfold packTileID
  have h1 : Int.lor ((x : Int) * 65536) (y : Int) = (((x * 65536) ||| y : Nat) : Int) := by
    rw [show ((x : Int) * 65536) = ((x * 65536 : Nat) : Int) by push_cast; ring]
    rfl
  have h2 : (x * 65536) ||| y < 4294967296 := by
    have hx2 : x * 65536 < 4294967296 := by omega
    have h32 : (4294967296 : Nat) = 2 ^ 32 := by norm_num
    rw [h32] at hx2 ⊢
    exact Nat.bitwise_lt_two_pow hx2 (by omega)
  have h3 : x <<< 16 ||| y = x * 65536 ||| y := by
    rw [Nat.shiftLeft_eq]
  rw [h1, h3]
  omega

/-- Bitwise or of any integer with the all-ones word -1 is -1. -/
theorem int_lor_neg_one (x : Int) : Int.lor x (-1) = -1 := by
  have hneg : (-1 : Int) = Int.negSucc 0 := rfl
  rw [hneg]
  cases x with
  | ofNat m =>
      show Int.lor (Int.ofNat m) (Int.negSucc 0) = Int.negSucc 0
      simp [Int.lor, Nat.ldiff, Nat.bitwise]
  | negSucc m =>
      show Int.lor (Int.negSucc m) (Int.negSucc 0) = Int.negSucc 0
      simp [Int.lor]

/-- With y = -1 the packed tile key is 0xFFFFFFFF for every x: the high
bits of y overwrite the x field. -/
theorem packTileID_neg_one (x : Int) : packTileID x (-1) = 4294967295 := by
  unfold packTileID
  rw [int_lor_neg_one]
  decide

/-- The uint32-to-int32 conversion is the identity below 2^31. -/
theorem toInt32_small (n : Nat) (h : n < 2147483648) : toInt32 n = (n : Int) := by
  unfold toInt32
  have h1 : n % 4294967296 = n := Nat.mod_eq_of_lt (by omega)
  rw [h1, if_pos h]

theorem findVal_updateKey_self {α : Type} (l : List (Nat × α)) (k : Nat)
    (f : α → α) (v : α) (h : findVal l k = some v) :
    findVal (updateKey l k f) k = some (f v) := by
  induction l with
  | nil => simp [findVal] at h
  | cons p rest ih =>
      rcases p with ⟨k1, v1⟩
      by_cases hk : k1 = k
      · simp [findVal, hk] at h
        simp [updateKey, findVal, hk, h]
      · simp [findVal, hk] at h
        simp [updateKey, findVal, hk, ih h]

theorem sumTileLens_cons (k : Nat) (v : MMapData) (rest : List (Nat × MMapData)) :
    sumTileLens ((k, v) :: rest) = v.mmapLoadedTiles.length + sumTileLens rest := by
  simp [sumTileLens]

theorem sumTileLens_updateKey (l : List (Nat × MMapData)) (key : Nat)
    (f : MMapData → MMapData) (mm : MMapData) (h : findVal l key = some mm) :
    sumTileLens (updateKey l key f) + mm.mmapLoadedTiles.length =
      sumTileLens l + (f mm).mmapLoadedTiles.length := by
  induction l with
  | nil => simp [findVal] at h
  | cons p rest ih =>
      rcases p with ⟨k1, v1⟩
      by_cases hk : k1 = key
      · simp [findVal, hk] at h
        subst h
        simp [updateKey, hk, sumTileLens_cons]
        omega
      · simp [findVal, hk] at h
        have := ih h
        simp [updateKey, hk, sumTileLens_cons]
        omega

theorem eraseKey_length {α : Type} (l : List (Nat × α)) (k : Nat) (v : α)
    (h : findVal l k = some v) : (eraseKey l k).length + 1 = l.length := by
  induction l with
  | nil => simp [findVal] at h
  | cons p rest ih =>
      rcases p with ⟨k1, v1⟩
      by_cases hk : k1 = k
      · simp [eraseKey, hk]
      · simp [findVal, hk] at h
        have := ih h
        simp [eraseKey, hk]
        omega

/-- loadMapData changes neither the counter, the tile totals, nor the
static models, performs no size-dependent action, and on success leaves an
entry registered under the packed key. -/
theorem loadMapData_spec (env : Env) (s : MMapManagerState) (mapId instanceId : Nat) :
    (loadMapData env s mapId instanceId).2.1.loadedTiles = s.loadedTiles ∧
    totalTiles (loadMapData env s mapId instanceId).2.1 = totalTiles s ∧
    (loadMapData env s mapId instanceId).2.1.loadedModels = s.loadedModels ∧
    (∀ a ∈ (loadMapData env s mapId instanceId).2.2, usesPayloadSize a = false) ∧
    ((loadMapData env s mapId instanceId).1 = true →
      ∃ mm, findVal (loadMapData env s mapId instanceId).2.1.loadedMMaps
        (packInstanceId mapId instanceId) = some mm) := by
  unfold loadMapData
  split
  · next h =>
      refine ⟨rfl, rfl, rfl, by simp, fun _ => ?_⟩
      rcases Option.isSome_iff_exists.mp h with ⟨mm, hmm⟩
      exact ⟨mm, hmm⟩
  · split
    · refine ⟨rfl, ?_, rfl, by simp [usesPayloadSize], fun _ => ?_⟩
      · simp [totalTiles, sumTileLens_cons]
      · exact ⟨⟨env.meshOf mapId, [], []⟩, by simp [findVal]⟩
    · exact ⟨rfl, rfl, rfl, by simp [usesPayloadSize], fun hh => by simp at hh⟩

/-- When the engine accepts every removal, the per-entry removal loop of
unloadMap(uint32 mapId) subtracts the entry tile count from the counter. -/
theorem unloadEntryTiles_all_ok (env : Env) (tiles : List (Nat × Nat)) (c : Nat)
    (heng : ∀ r, env.removeTileOk r = true) :
    unloadEntryTiles env tiles c = c - tiles.length := by
  induction tiles generalizing c with
  | nil => simp [unloadEntryTiles]
  | cons t rest ih =>
      simp only [unloadEntryTiles, List.foldl_cons, heng t.2, if_true] at ih ⊢
      rw [ih (c - 1), List.length_cons]
      omega

theorem matchedTiles_cons (k : Nat) (v : MMapData) (rest : List (Nat × MMapData)) (key : Nat) :
    matchedTiles ((k, v) :: rest) key =
      (if k = key then v.mmapLoadedTiles.length else 0) + matchedTiles rest key := by
  by_cases hk : k = key
  · simp [matchedTiles, hk]
  · simp [matchedTiles, hk]

/-- Full characterization of the unloadMap(uint32 mapId) loop when the
engine accepts every removal: exactly the entries whose packed key equals
mapId shifted left by 32 are dropped, their tile counts are subtracted
from the counter, and the flag records whether any such entry existed. -/
theorem unloadAllLoop_spec (env : Env) (mapId : Nat)
    (heng : ∀ r, env.removeTileOk r = true) :
    ∀ (l : List (Nat × MMapData)) (c : Nat),
      unloadAllLoop env mapId l c =
        (l.filter (fun p => p.1 != mapId <<< 32),
         c - matchedTiles l (mapId <<< 32),
         l.any (fun p => p.1 == mapId <<< 32)) := by
  intro l
  induction l with
  | nil => intro c; simp [unloadAllLoop, matchedTiles]
  | cons p rest ih =>
      intro c
      rcases p with ⟨k, mm⟩
      by_cases hk : k = mapId <<< 32
      · rw [show unloadAllLoop env mapId ((k, mm) :: rest) c =
            (let r := unloadAllLoop env mapId rest
                (unloadEntryTiles env mm.mmapLoadedTiles c)
             (r.1, r.2.1, true)) from by simp [unloadAllLoop, hk]]
        rw [unloadEntryTiles_all_ok env _ c heng, ih]
        simp [hk, matchedTiles_cons]
        omega
      · rw [show unloadAllLoop env mapId ((k, mm) :: rest) c =
            (let r := unloadAllLoop env mapId rest c
             ((k, mm) :: r.1, r.2.1, r.2.2)) from by simp [unloadAllLoop, hk]]
        rw [ih]
        simp [hk, matchedTiles_cons]

/-- unloadMap(uint32 mapId) under an always-accepting engine: it drops
exactly the entries whose packed key is mapId shifted left by 32,
subtracts their tiles from the counter, leaves the static models alone,
and reports whether any such entry existed. -/
theorem unloadMapAll_spec (env : Env) (s : MMapManagerState) (mapId : Nat)
    (heng : ∀ r, env.removeTileOk r = true) :
    unloadMapAll env s mapId =
      (s.loadedMMaps.any (fun p => p.1 == mapId <<< 32),
       { s with
          loadedMMaps := s.loadedMMaps.filter (fun p => p.1 != mapId <<< 32),
          loadedTiles := s.loadedTiles - matchedTiles s.loadedMMaps (mapId <<< 32) }) := by
  unfold unloadMapAll
  rw [unloadAllLoop_spec env mapId heng]

/-- The tiles of the dropped entries and of the kept entries partition the
total tile count. -/
theorem sumTileLens_filter_add_matched (l : List (Nat × MMapData)) (key : Nat) :
    sumTileLens (l.filter (fun p => p.1 != key)) + matchedTiles l key = sumTileLens l := by
  induction l with
  | nil => simp [sumTileLens, matchedTiles]
  | cons p rest ih =>
      rcases p with ⟨k, mm⟩
      by_cases hk : k = key
      · simp [hk, matchedTiles_cons, sumTileLens_cons]
        omega
      · simp [hk, matchedTiles_cons, sumTileLens_cons]
        omega

/-- Characterization of a successful loadMap: the map data stage left an
entry (with the same counter, totals and models as before) in which the
packed tile key was absent, the engine accepted the tile, and the final
state records the new tile ref under the packed key and increments the
counter. -/
theorem loadMap_ok_spec (env : Env) (s : MMapManagerState) (mapId instanceId : Nat)
    (x y : Int) (number : Nat)
    (h : (loadMap env s mapId instanceId x y number).ok = true) :
    ∃ s1 mmap tileRef,
      findVal s1.loadedMMaps (packInstanceId mapId instanceId) = some mmap ∧
      findVal mmap.mmapLoadedTiles (packTileID x y) = none ∧
      env.addTileRef mapId x y number = some tileRef ∧
      s1.loadedTiles = s.loadedTiles ∧
      totalTiles s1 = totalTiles s ∧
      s1.loadedModels = s.loadedModels ∧
      (loadMap env s mapId instanceId x y number).state =
        { s1 with
            loadedMMaps := updateKey s1.loadedMMaps (packInstanceId mapId instanceId)
              (fun mm => { mm with mmapLoadedTiles :=
                (packTileID x y, tileRef) :: mm.mmapLoadedTiles }),
            loadedTiles := s1.loadedTiles + 1 } := by
  rcases hr : loadMap env s mapId instanceId x y number with ⟨ok, st, acts⟩
  rw [hr] at h
  have hok : ok = true := h
  subst hok
  unfold loadMap at hr
  split at hr
  · simp at hr
  · split at hr
    · simp at hr
    · split at hr
      · simp at hr
      · split at hr
        · simp at hr
        · split at hr
          · simp at hr
          · split at hr
            · simp at hr
            · split at hr
              · simp at hr
              · split at hr
                · simp at hr
                · rename_i x0 s1 actsA heqMD fvOpt mmap heqFV hTileAbsent tfOpt tf heqTF
                    hmagic hver hread refOpt tileRef heqRef
                  injection hr with hb hs ha
                  have hmd := loadMapData_spec env s mapId instanceId
                  rw [heqMD] at hmd
                  have hnone : findVal mmap.mmapLoadedTiles (packTileID x y) = none := by
                    rcases hfv : findVal mmap.mmapLoadedTiles (packTileID x y) with _ | v
                    · rfl
                    · rw [hfv] at hTileAbsent
                      simp at hTileAbsent
                  exact ⟨s1, mmap, tileRef, heqFV, hnone, heqRef,
                    hmd.1, hmd.2.1, hmd.2.2.1, hs.symm⟩

/-- A failed loadMap leaves exactly the state loadMapData produced. -/
theorem loadMap_not_ok_state (env : Env) (s : MMapManagerState) (mapId instanceId : Nat)
    (x y : Int) (number : Nat)
    (h : (loadMap env s mapId instanceId x y number).ok = false) :
    (loadMap env s mapId instanceId x y number).state =
      (loadMapData env s mapId instanceId).2.1 := by
  rcases hr : loadMap env s mapId instanceId x y number with ⟨ok, st, acts⟩
  rw [hr] at h
  have hok : ok = false := h
  subst hok
  unfold loadMap at hr
  split at hr
  · simp_all
  · split at hr
    · simp_all
    · split at hr
      · simp_all
      · split at hr
        · simp_all
        · split at hr
          · simp_all
          · split at hr
            · simp_all
            · split at hr
              · simp_all
              · split at hr
                · simp_all
                · simp_all

/-- Claim C3: assuming the navigation engine reports success on each tile
removal, every public cache operation preserves the bookkeeping invariant
that m_loadedTiles equals the number of tile entries across all
MeshEntries: loadMap increments the counter exactly when it inserts a
tile key, and each unload path decrements it exactly when a tile key is
removed. -/
theorem loadedTiles_counter_invariant (env : Env) (s : MMapManagerState)
    (mapId instanceId : Nat) (x y : Int) (number : Nat)
    (hinv : CounterInvariant s)
    (heng : ∀ r, env.removeTileOk r = true) :
    CounterInvariant (loadMap env s mapId instanceId x y number).state ∧
    CounterInvariant (unloadOutcomeState (unloadMapTile env s mapId instanceId x y) s) ∧
    CounterInvariant (unloadMapAll env s mapId).2 ∧
    CounterInvariant (unloadMapInstance s mapId instanceId).2 := by
  refine ⟨?_, ?_, ?_, ?_⟩
  · rcases hok : (loadMap env s mapId instanceId x y number).ok with _ | _
    · have hst := loadMap_not_ok_state env s mapId instanceId x y number hok
      have hmd := loadMapData_spec env s mapId instanceId
      unfold CounterInvariant at hinv ⊢
      rw [hst, hmd.1, hmd.2.1]
      exact hinv
    · obtain ⟨s1, mmap, tileRef, hFV, hnone, hRef, hc, ht, hm, hstate⟩ :=
        loadMap_ok_spec env s mapId instanceId x y number hok
      unfold CounterInvariant at hinv ⊢
      rw [hstate]
      have hsum := sumTileLens_updateKey s1.loadedMMaps (packInstanceId mapId instanceId) (fun mm => { mm with mmapLoadedTiles := (packTileID x y, tileRef) :: mm.mmapLoadedTiles }) mmap hFV
      unfold totalTiles at hinv ht ⊢
      simp at hsum ⊢
      omega
  · unfold unloadMapTile
    split
    · simpa [unloadOutcomeState] using hinv
    · next x0 mmap heqFV =>
        split
        · simpa [unloadOutcomeState] using hinv
        · next tOpt tileRef heqTile =>
            rw [if_pos (heng tileRef)]
            simp only [unloadOutcomeState]
            have hsum := sumTileLens_updateKey s.loadedMMaps (packInstanceId mapId instanceId) (fun mm => { mm with mmapLoadedTiles := eraseKey mm.mmapLoadedTiles (packTileID x y) }) mmap heqFV
            have hlen := eraseKey_length mmap.mmapLoadedTiles (packTileID x y) tileRef heqTile
            unfold CounterInvariant totalTiles at hinv ⊢
            simp at hsum ⊢
            omega
  · rw [unloadMapAll_spec env s mapId heng]
    have hpart := sumTileLens_filter_add_matched s.loadedMMaps (mapId <<< 32)
    unfold CounterInvariant totalTiles at hinv ⊢
    simp
    omega
  · unfold unloadMapInstance
    split
    · simpa using hinv
    · next x0 mmap heqFV =>
        split
        · simp only
          have hsum := sumTileLens_updateKey s.loadedMMaps (packInstanceId mapId instanceId) (fun mm => { mm with navMeshQueries := eraseKey mm.navMeshQueries instanceId }) mmap heqFV
          unfold CounterInvariant totalTiles at hinv ⊢
          simp at hsum ⊢
          omega
        · simpa using hinv

/-- Closed witness for claim C3 at a concrete state and environment. -/
theorem loadedTiles_counter_invariant_witness :
    CounterInvariant
      (unloadOutcomeState
        (unloadMapTile envTrue
          ⟨[(packInstanceId 1 0, ⟨7, [(packTileID 3 4, 11)], []⟩)], 1, []⟩ 1 0 3 4)
        ⟨[(packInstanceId 1 0, ⟨7, [(packTileID 3 4, 11)], []⟩)], 1, []⟩) :=
  (loadedTiles_counter_invariant envTrue
    ⟨[(packInstanceId 1 0, ⟨7, [(packTileID 3 4, 11)], []⟩)], 1, []⟩
    1 0 3 4 0 rfl (fun _r => rfl)).2.1

/-- Helper: when the MeshEntry exists and the packed tile key is already
resident, loadMap returns false, changes nothing and performs no external
call. -/
theorem loadMap_already_loaded (env : Env) (s : MMapManagerState)
    (mapId instanceId : Nat) (x y : Int) (number : Nat) (mmap : MMapData) (tileRef : Nat)
    (hFV : findVal s.loadedMMaps (packInstanceId mapId instanceId) = some mmap)
    (hdup : findVal mmap.mmapLoadedTiles (packTileID x y) = some tileRef) :
    loadMap env s mapId instanceId x y number = ⟨false, s, []⟩ := by
  have hmd : loadMapData env s mapId instanceId = (true, s, []) := by
    unfold loadMapData
    rw [hFV]
    simp
  simp [loadMap, hmd, hFV, hdup]

/-- Claim C5: loading an already-resident (map, instance, x, y) fails and
leaves the resident tile set, the stored tile handles and the global
loaded-tile counter unchanged: the duplicate is an error, not an
idempotent success. -/
theorem loadMap_duplicate_rejected (env : Env) (s : MMapManagerState)
    (mapId instanceId : Nat) (x y : Int) (number : Nat) (mmap : MMapData) (tileRef : Nat)
    (hFV : findVal s.loadedMMaps (packInstanceId mapId instanceId) = some mmap)
    (hdup : findVal mmap.mmapLoadedTiles (packTileID x y) = some tileRef) :
    (loadMap env s mapId instanceId x y number).ok = false ∧
    (loadMap env s mapId instanceId x y number).state = s ∧
    (loadMap env s mapId instanceId x y number).actions = [] := by
  rw [loadMap_already_loaded env s mapId instanceId x y number mmap tileRef hFV hdup]
  exact ⟨rfl, rfl, rfl⟩

/-- Closed witness for claim C5 at a concrete resident tile. -/
theorem loadMap_duplicate_rejected_witness :
    (loadMap envTrue ⟨[(packInstanceId 1 0, ⟨7, [(packTileID 3 4, 11)], []⟩)], 1, []⟩
      1 0 3 4 0).ok = false ∧
    (loadMap envTrue ⟨[(packInstanceId 1 0, ⟨7, [(packTileID 3 4, 11)], []⟩)], 1, []⟩
      1 0 3 4 0).state = ⟨[(packInstanceId 1 0, ⟨7, [(packTileID 3 4, 11)], []⟩)], 1, []⟩ ∧
    (loadMap envTrue ⟨[(packInstanceId 1 0, ⟨7, [(packTileID 3 4, 11)], []⟩)], 1, []⟩
      1 0 3 4 0).actions = [] :=
  loadMap_duplicate_rejected envTrue
    ⟨[(packInstanceId 1 0, ⟨7, [(packTileID 3 4, 11)], []⟩)], 1, []⟩
    1 0 3 4 0 ⟨7, [(packTileID 3 4, 11)], []⟩ 11 (by decide) (by decide)

/-- Claim C7: the single-tile unload hits the fatal assertion exactly when
the mesh entry and the tile are present but the engine rejects the
removal; every non-fatal return happens only when the tile or mesh was
absent or the engine removal succeeded. -/
theorem unloadTile_engine_failure_fatal (env : Env) (s : MMapManagerState)
    (mapId instanceId : Nat) (x y : Int) :
    unloadMapTile env s mapId instanceId x y = UnloadOutcome.fatalAssert ↔
    ∃ mmap tileRef,
      findVal s.loadedMMaps (packInstanceId mapId instanceId) = some mmap ∧
      findVal mmap.mmapLoadedTiles (packTileID x y) = some tileRef ∧
      env.removeTileOk tileRef = false := by
  unfold unloadMapTile
  split
  · next heq => simp [heq]
  · next x0 mmap heqFV =>
      split
      · next heqTile => simp [heqFV, heqTile]
      · next t0 tileRef heqTile =>
          by_cases hrem : env.removeTileOk tileRef = true
          · rw [if_pos hrem]
            simp [heqFV, heqTile, hrem]
          · rw [if_neg hrem]
            have hfalse : env.removeTileOk tileRef = false := by
              cases h2 : env.removeTileOk tileRef
              · rfl
              · exact absurd h2 hrem
            simp [heqFV, heqTile, hfalse]

/-- Claim C8: unloadMapInstance removes and frees only the per-instance
query handle; the MeshEntry, its mesh, its tile set and the global
counter are untouched, and with no entry or no handle it fails without
side effects. -/
theorem unloadMapInstance_frame (s : MMapManagerState) (mapId instanceId : Nat) :
    (findVal s.loadedMMaps (packInstanceId mapId instanceId) = none →
      unloadMapInstance s mapId instanceId = (false, s)) ∧
    (∀ mmap, findVal s.loadedMMaps (packInstanceId mapId instanceId) = some mmap →
      findVal mmap.navMeshQueries instanceId = none →
      unloadMapInstance s mapId instanceId = (false, s)) ∧
    (∀ mmap q, findVal s.loadedMMaps (packInstanceId mapId instanceId) = some mmap →
      findVal mmap.navMeshQueries instanceId = some q →
      unloadMapInstance s mapId instanceId =
        (true, { s with loadedMMaps := updateKey s.loadedMMaps (packInstanceId mapId instanceId) (fun mm => { mm with navMeshQueries := eraseKey mm.navMeshQueries instanceId }) }) ∧
      (unloadMapInstance s mapId instanceId).2.loadedTiles = s.loadedTiles ∧
      (unloadMapInstance s mapId instanceId).2.loadedModels = s.loadedModels ∧
      ∃ mm2, findVal (unloadMapInstance s mapId instanceId).2.loadedMMaps
          (packInstanceId mapId instanceId) = some mm2 ∧
        mm2.navMesh = mmap.navMesh ∧
        mm2.mmapLoadedTiles = mmap.mmapLoadedTiles ∧
        mm2.navMeshQueries = eraseKey mmap.navMeshQueries instanceId) := by
  refine ⟨?_, ?_, ?_⟩
  · intro h
    simp [unloadMapInstance, h]
  · intro mmap h hq
    simp [unloadMapInstance, h, hq]
  · intro mmap q h hq
    have hmain : unloadMapInstance s mapId instanceId =
        (true, { s with loadedMMaps := updateKey s.loadedMMaps (packInstanceId mapId instanceId) (fun mm => { mm with navMeshQueries := eraseKey mm.navMeshQueries instanceId }) }) := by
      simp [unloadMapInstance, h, hq]
    refine ⟨hmain, ?_, ?_, ?_⟩
    · rw [hmain]
    · rw [hmain]
    · rw [hmain]
      exact ⟨_, findVal_updateKey_self s.loadedMMaps (packInstanceId mapId instanceId) _ mmap h,
        rfl, rfl, rfl⟩

/-- Closed witness for claim C8: a state with one entry and one query
handle, which the call removes while keeping mesh, tiles and counter. -/
theorem unloadMapInstance_frame_witness :
    unloadMapInstance ⟨[(packInstanceId 2 3, ⟨9, [(packTileID 1 1, 5)], [(3, 77)]⟩)], 1, []⟩ 2 3 =
      (true, ⟨[(packInstanceId 2 3, ⟨9, [(packTileID 1 1, 5)], []⟩)], 1, []⟩) := by
  have h := ((unloadMapInstance_frame
    ⟨[(packInstanceId 2 3, ⟨9, [(packTileID 1 1, 5)], [(3, 77)]⟩)], 1, []⟩ 2 3).2.2
    ⟨9, [(packTileID 1 1, 5)], [(3, 77)]⟩ 77 (by decide) (by decide)).1
  rw [h]
  decide

/-- Claim C4: after a successful loadMap the tile is resident; an unload
(with the engine accepting the removal) succeeds and returns the tile to
the absent state, with the packed key gone from the MeshEntry tile set
and IsMMapTileLoaded false; a second unload of the same coordinate then
fails as not loaded, with no state transition. -/
theorem tile_load_unload_roundtrip (env : Env) (s : MMapManagerState)
    (mapId instanceId x y number : Nat) (hx : x < 65536) (hy : y < 65536)
    (hload : (loadMap env s mapId instanceId (x : Int) (y : Int) number).ok = true)
    (heng : ∀ r, env.removeTileOk r = true) :
    IsMMapTileLoaded (loadMap env s mapId instanceId (x : Int) (y : Int) number).state
      mapId instanceId x y = true ∧
    ∃ s2, unloadMapTile env (loadMap env s mapId instanceId (x : Int) (y : Int) number).state
        mapId instanceId (x : Int) (y : Int) = UnloadOutcome.unloaded s2 ∧
      (∃ mm2, findVal s2.loadedMMaps (packInstanceId mapId instanceId) = some mm2 ∧
        findVal mm2.mmapLoadedTiles (packTileID (x : Int) (y : Int)) = none) ∧
      IsMMapTileLoaded s2 mapId instanceId x y = false ∧
      unloadMapTile env s2 mapId instanceId (x : Int) (y : Int) = UnloadOutcome.notLoaded := by
  obtain ⟨s1, mmap, tileRef, hFV, hnone, hRef, hc, ht, hm, hstate⟩ :=
    loadMap_ok_spec env s mapId instanceId (x : Int) (y : Int) number hload
  have htx : toInt32 x = (x : Int) := toInt32_small x (by omega)
  have hty : toInt32 y = (y : Int) := toInt32_small y (by omega)
  have hFV2 : findVal (loadMap env s mapId instanceId (x : Int) (y : Int) number).state.loadedMMaps
      (packInstanceId mapId instanceId) =
      some ⟨mmap.navMesh,
        (packTileID (x : Int) (y : Int), tileRef) :: mmap.mmapLoadedTiles,
        mmap.navMeshQueries⟩ := by
    rw [hstate]
    exact findVal_updateKey_self s1.loadedMMaps (packInstanceId mapId instanceId) _ mmap hFV
  have htile : findVal ((packTileID (x : Int) (y : Int), tileRef) :: mmap.mmapLoadedTiles)
      (packTileID (x : Int) (y : Int)) = some tileRef := by
    simp [findVal]
  have herase : eraseKey ((packTileID (x : Int) (y : Int), tileRef) :: mmap.mmapLoadedTiles)
      (packTileID (x : Int) (y : Int)) = mmap.mmapLoadedTiles := by
    simp [eraseKey]
  have h2 := findVal_updateKey_self
    (loadMap env s mapId instanceId (x : Int) (y : Int) number).state.loadedMMaps
    (packInstanceId mapId instanceId)
    (fun mm => { mm with mmapLoadedTiles := eraseKey mm.mmapLoadedTiles (packTileID (x : Int) (y : Int)) })
    ⟨mmap.navMesh, (packTileID (x : Int) (y : Int), tileRef) :: mmap.mmapLoadedTiles, mmap.navMeshQueries⟩
    hFV2
  refine ⟨?_, ⟨{ (loadMap env s mapId instanceId (x : Int) (y : Int) number).state with
      loadedMMaps := updateKey
        (loadMap env s mapId instanceId (x : Int) (y : Int) number).state.loadedMMaps
        (packInstanceId mapId instanceId)
        (fun mm => { mm with mmapLoadedTiles := eraseKey mm.mmapLoadedTiles (packTileID (x : Int) (y : Int)) }),
      loadedTiles := (loadMap env s mapId instanceId (x : Int) (y : Int) number).state.loadedTiles - 1 },
    ?_, ?_, ?_, ?_⟩⟩
  · unfold IsMMapTileLoaded
    rw [htx, hty, hFV2]
    simp [findVal]
  · unfold unloadMapTile
    rw [hFV2]
    dsimp only
    rw [htile]
    dsimp only
    rw [if_pos (heng tileRef)]
  · exact ⟨_, h2, by dsimp only; rw [herase]; exact hnone⟩
  · unfold IsMMapTileLoaded
    rw [htx, hty]
    dsimp only
    rw [h2]
    dsimp only
    rw [herase, hnone]
    rfl
  · unfold unloadMapTile
    dsimp only
    rw [h2]
    dsimp only
    rw [herase, hnone]

/-- Closed witness for claim C4 at a concrete successful load. -/
theorem tile_load_unload_roundtrip_witness :
    IsMMapTileLoaded (loadMap envTrue ⟨[], 0, []⟩ 1 0 (3 : Int) (4 : Int) 0).state 1 0 3 4 = true :=
  (tile_load_unload_roundtrip envTrue ⟨[], 0, []⟩ 1 0 3 4 0 (by decide) (by decide)
    (by decide) (fun _r => rfl)).1

/-- Claim C10: packTileID computes uint32(x << 16 | y) without masking, so
out-of-range coordinates collide: for every x1 and x2 the pairs (x1, -1)
and (x2, -1) pack to 0xFFFFFFFF, because the high bits of y overwrite the
x field; consequently loadMap conflates such distinct tiles, rejecting a
load of (x2, -1) as a duplicate right after (x1, -1) was loaded. -/
theorem packTileID_out_of_range_collision (x1 x2 : Int) (env : Env)
    (s : MMapManagerState) (mapId instanceId number : Nat) :
    packTileID x1 (-1) = 4294967295 ∧
    packTileID x2 (-1) = 4294967295 ∧
    ((loadMap env s mapId instanceId x1 (-1) number).ok = true →
      (loadMap env (loadMap env s mapId instanceId x1 (-1) number).state
        mapId instanceId x2 (-1) number).ok = false) := by
  refine ⟨packTileID_neg_one x1, packTileID_neg_one x2, fun hok => ?_⟩
  obtain ⟨s1, mmap, tileRef, hFV, hnone, hRef, hc, ht, hm, hstate⟩ :=
    loadMap_ok_spec env s mapId instanceId x1 (-1) number hok
  have hFV2 : findVal (loadMap env s mapId instanceId x1 (-1) number).state.loadedMMaps
      (packInstanceId mapId instanceId) =
      some ⟨mmap.navMesh, (packTileID x1 (-1), tileRef) :: mmap.mmapLoadedTiles,
        mmap.navMeshQueries⟩ := by
    rw [hstate]
    exact findVal_updateKey_self s1.loadedMMaps (packInstanceId mapId instanceId) _ mmap hFV
  have hdup : findVal (⟨mmap.navMesh, (packTileID x1 (-1), tileRef) :: mmap.mmapLoadedTiles,
      mmap.navMeshQueries⟩ : MMapData).mmapLoadedTiles (packTileID x2 (-1)) = some tileRef := by
    dsimp only
    rw [packTileID_neg_one x1, packTileID_neg_one x2]
    simp [findVal]
  rw [loadMap_already_loaded env (loadMap env s mapId instanceId x1 (-1) number).state
    mapId instanceId x2 (-1) number _ tileRef hFV2 hdup]

/-- Closed witness for claim C10: after loading tile (5, -1) on an empty
cache, loading the distinct tile (9, -1) is rejected as a duplicate. -/
theorem packTileID_out_of_range_collision_witness :
    (loadMap envTrue (loadMap envTrue ⟨[], 0, []⟩ 1 0 5 (-1) 0).state 1 0 9 (-1) 0).ok
      = false :=
  (packTileID_out_of_range_collision 5 9 envTrue ⟨[], 0, []⟩ 1 0 0).2.2 (by decide)

/-- Counterexample to claim C1: a state whose only MeshEntry has packed
key (map 1, instance 5) — its map portion is 1 — yet unloadMap(1) finds
nothing: it returns false and leaves the state untouched, because the
loop compares the full 64-bit key against mapId shifted left by 32 and so
only matches instance 0. -/
theorem unloadAllForMap_counterexample :
    (packInstanceId 1 5) >>> 32 = 1 ∧
    findVal ([(packInstanceId 1 5, (⟨7, [(packTileID 3 4, 11)], []⟩ : MMapData))])
      (packInstanceId 1 5) = some ⟨7, [(packTileID 3 4, 11)], []⟩ ∧
    (unloadMapAll envTrue ⟨[(packInstanceId 1 5, ⟨7, [(packTileID 3 4, 11)], []⟩)], 1, []⟩ 1).1
      = false ∧
    (unloadMapAll envTrue ⟨[(packInstanceId 1 5, ⟨7, [(packTileID 3 4, 11)], []⟩)], 1, []⟩ 1).2
      = ⟨[(packInstanceId 1 5, ⟨7, [(packTileID 3 4, 11)], []⟩)], 1, []⟩ := by
  refine ⟨by decide, by decide, by decide, by decide⟩

/-- Claim C1 as amended: unloadMap(mapId) removes the tiles of and
destroys exactly the MeshEntries whose full packed key equals mapId
shifted left by 32 — that is, map portion mapId with instance portion 0.
Entries of other maps, and entries of the same map with a nonzero
instance portion, are left untouched, and the call returns true exactly
when an entry with that packed key existed. Tile removals are reflected
in the counter when the engine accepts each removal. -/
theorem unloadAllForMap_amended (env : Env) (s : MMapManagerState) (mapId : Nat)
    (heng : ∀ r, env.removeTileOk r = true) :
    (unloadMapAll env s mapId).1 = s.loadedMMaps.any (fun p => p.1 == mapId <<< 32) ∧
    (unloadMapAll env s mapId).2.loadedMMaps =
      s.loadedMMaps.filter (fun p => p.1 != mapId <<< 32) ∧
    (unloadMapAll env s mapId).2.loadedTiles =
      s.loadedTiles - matchedTiles s.loadedMMaps (mapId <<< 32) ∧
    (unloadMapAll env s mapId).2.loadedModels = s.loadedModels := by
  rw [unloadMapAll_spec env s mapId heng]
  exact ⟨rfl, rfl, rfl, rfl⟩

/-- Closed witness for the amended claim C1: a state holding instance 0
and instance 5 of map 1; the call removes exactly the instance-0 entry. -/
theorem unloadAllForMap_amended_witness :
    (unloadMapAll envTrue ⟨[(packInstanceId 1 0, ⟨6, [(packTileID 2 2, 21)], []⟩),
        (packInstanceId 1 5, ⟨7, [(packTileID 3 4, 11)], []⟩)], 2, []⟩ 1).1 =
      ([(packInstanceId 1 0, (⟨6, [(packTileID 2 2, 21)], []⟩ : MMapData)),
        (packInstanceId 1 5, ⟨7, [(packTileID 3 4, 11)], []⟩)].any
          (fun p => p.1 == 1 <<< 32)) ∧
    (unloadMapAll envTrue ⟨[(packInstanceId 1 0, ⟨6, [(packTileID 2 2, 21)], []⟩),
        (packInstanceId 1 5, ⟨7, [(packTileID 3 4, 11)], []⟩)], 2, []⟩ 1).2.loadedMMaps =
      ([(packInstanceId 1 0, (⟨6, [(packTileID 2 2, 21)], []⟩ : MMapData)),
        (packInstanceId 1 5, ⟨7, [(packTileID 3 4, 11)], []⟩)].filter
          (fun p => p.1 != 1 <<< 32)) ∧
    (unloadMapAll envTrue ⟨[(packInstanceId 1 0, ⟨6, [(packTileID 2 2, 21)], []⟩),
        (packInstanceId 1 5, ⟨7, [(packTileID 3 4, 11)], []⟩)], 2, []⟩ 1).2.loadedTiles =
      2 - matchedTiles [(packInstanceId 1 0, ⟨6, [(packTileID 2 2, 21)], []⟩),
        (packInstanceId 1 5, ⟨7, [(packTileID 3 4, 11)], []⟩)] (1 <<< 32) ∧
    (unloadMapAll envTrue ⟨[(packInstanceId 1 0, ⟨6, [(packTileID 2 2, 21)], []⟩),
        (packInstanceId 1 5, ⟨7, [(packTileID 3 4, 11)], []⟩)], 2, []⟩ 1).2.loadedModels = [] :=
  unloadAllForMap_amended envTrue
    ⟨[(packInstanceId 1 0, ⟨6, [(packTileID 2 2, 21)], []⟩),
      (packInstanceId 1 5, ⟨7, [(packTileID 3 4, 11)], []⟩)], 2, []⟩ 1 (fun _r => rfl)

/-- Claim C2: the key packings are bijective over the valid ranges. For
32-bit map and instance ids, packInstanceId recovers the map from the
high 32 bits and the instance from the low 32 bits and is injective; for
16-bit tile coordinates, packTileID recovers x from the high 16 bits and
y from the low 16 bits and is injective: unpack(pack(a, b)) = (a, b). -/
theorem packings_bijective :
    (∀ m i m2 i2 : Nat, m < 4294967296 → i < 4294967296 →
      m2 < 4294967296 → i2 < 4294967296 →
      (packInstanceId m i) >>> 32 = m ∧
      (packInstanceId m i) % 4294967296 = i ∧
      (packInstanceId m i = packInstanceId m2 i2 → m = m2 ∧ i = i2)) ∧
    (∀ x y x2 y2 : Int, 0 ≤ x → x < 65536 → 0 ≤ y → y < 65536 →
      0 ≤ x2 → x2 < 65536 → 0 ≤ y2 → y2 < 65536 →
      ((packTileID x y) >>> 16 : Nat) = x.toNat ∧
      (packTileID x y) % 65536 = y.toNat ∧
      (packTileID x y = packTileID x2 y2 → x = x2 ∧ y = y2)) := by
  have h32 : (4294967296 : Nat) = 2 ^ 32 := by norm_num
  have h16 : (65536 : Nat) = 2 ^ 16 := by norm_num
  have hinst : ∀ m i : Nat, i < 4294967296 →
      (packInstanceId m i) >>> 32 = m ∧ (packInstanceId m i) % 4294967296 = i := by
    intro m i hi
    rw [h32] at hi ⊢
    exact ⟨shiftLeft_lor_shiftRight m i 32 hi, shiftLeft_lor_mod m i 32 hi⟩
  have htile : ∀ x y : Int, 0 ≤ x → x < 65536 → 0 ≤ y → y < 65536 →
      ((packTileID x y) >>> 16 : Nat) = x.toNat ∧ (packTileID x y) % 65536 = y.toNat := by
    intro x y hx0 hx hy0 hy
    have hxv : (x.toNat : Int) = x := Int.toNat_of_nonneg hx0
    have hyv : (y.toNat : Int) = y := Int.toNat_of_nonneg hy0
    have hxn : x.toNat < 65536 := by omega
    have hyn : y.toNat < 65536 := by omega
    have hp : packTileID x y = (x.toNat <<< 16) ||| y.toNat := by
      rw [← hxv, ← hyv]
      exact packTileID_ofNat x.toNat y.toNat hxn hyn
    rw [h16] at hyn
    rw [hp, h16]
    exact ⟨shiftLeft_lor_shiftRight x.toNat y.toNat 16 hyn,
      shiftLeft_lor_mod x.toNat y.toNat 16 hyn⟩
  constructor
  · intro m i m2 i2 hm hi hm2 hi2
    refine ⟨(hinst m i hi).1, (hinst m i hi).2, fun heq => ?_⟩
    constructor
    · rw [← (hinst m i hi).1, ← (hinst m2 i2 hi2).1, heq]
    · rw [← (hinst m i hi).2, ← (hinst m2 i2 hi2).2, heq]
  · intro x y x2 y2 hx0 hx hy0 hy hx20 hx2 hy20 hy2
    refine ⟨(htile x y hx0 hx hy0 hy).1, (htile x y hx0 hx hy0 hy).2, fun heq => ?_⟩
    have e1 : x.toNat = x2.toNat := by
      rw [← (htile x y hx0 hx hy0 hy).1, ← (htile x2 y2 hx20 hx2 hy20 hy2).1, heq]
    have e2 : y.toNat = y2.toNat := by
      rw [← (htile x y hx0 hx hy0 hy).2, ← (htile x2 y2 hx20 hx2 hy20 hy2).2, heq]
    omega

/-- Closed witness for claim C2 at concrete packed values. -/
theorem packings_bijective_witness :
    (packInstanceId 7 9) >>> 32 = 7 ∧ (packTileID 3 5) % 65536 = 5 :=
  ⟨(packings_bijective.1 7 9 7 9 (by decide) (by decide) (by decide) (by decide)).1,
   (packings_bijective.2 3 5 3 5 (by decide) (by decide) (by decide) (by decide)
      (by decide) (by decide) (by decide) (by decide)).2.1⟩

/-- Helper: when the tile file found for the coordinates has a wrong magic
or version, loadMap fails and no size-dependent external action occurs. -/
theorem loadMap_bad_header_rejected (env : Env) (s : MMapManagerState)
    (mapId instanceId : Nat) (x y : Int) (number : Nat) (tf : TileFile)
    (htf : env.tileFile mapId x y number = some tf)
    (hbad : tf.header.mmapMagic ≠ MMAP_MAGIC ∨ tf.header.mmapVersion ≠ MMAP_VERSION) :
    (loadMap env s mapId instanceId x y number).ok = false ∧
    ∀ a ∈ (loadMap env s mapId instanceId x y number).actions,
      usesPayloadSize a = false := by
  rcases hr : loadMap env s mapId instanceId x y number with ⟨ok, st, acts⟩
  unfold loadMap at hr
  have hmd := (loadMapData_spec env s mapId instanceId).2.2.2.1
  split at hr
  · next x0 s1 actsA heqMD =>
      rw [heqMD] at hmd
      injection hr with hb hs ha
      subst hb
      subst ha
      exact ⟨rfl, fun a haa => hmd a haa⟩
  · next x0 s1 actsA heqMD =>
      rw [heqMD] at hmd
      split at hr
      · next fvOpt heqFV =>
          injection hr with hb hs ha
          subst hb
          subst ha
          exact ⟨rfl, fun a haa => hmd a haa⟩
      · next fvOpt mmap heqFV =>
          split at hr
          · next hdup =>
              injection hr with hb hs ha
              subst hb
              subst ha
              exact ⟨rfl, fun a haa => hmd a haa⟩
          · next hndup =>
              split at hr
              · next tfOpt heqTF =>
                  injection hr with hb hs ha
                  subst hb
                  subst ha
                  refine ⟨rfl, ?_⟩
                  intro a haa
                  simp only [List.mem_append, List.mem_singleton] at haa
                  rcases haa with haa | haa
                  · exact hmd a haa
                  · subst haa
                    rfl
              · next tfOpt tf0 heqTF =>
                  split at hr
                  · next hmagic =>
                      injection hr with hb hs ha
                      subst hb
                      subst ha
                      refine ⟨rfl, ?_⟩
                      intro a haa
                      simp only [List.mem_append, List.mem_singleton] at haa
                      rcases haa with haa | haa
                      · exact hmd a haa
                      · subst haa
                        rfl
                  · next hmagic =>
                      split at hr
                      · next hver =>
                          injection hr with hb hs ha
                          subst hb
                          subst ha
                          refine ⟨rfl, ?_⟩
                          intro a haa
                          simp only [List.mem_append, List.mem_singleton] at haa
                          rcases haa with haa | haa
                          · exact hmd a haa
                          · subst haa
                            rfl
                      · next hver =>
                          rw [htf] at heqTF
                          injection heqTF with htf0
                          subst htf0
                          rcases hbad with hb | hb
                          · exact absurd hb hmagic
                          · exact absurd hb hver

/-- Helper: when the static-model file for the display id has a wrong
magic or version, loadGameObject performs no size-dependent action, and
if the model was not already loaded it fails. -/
theorem loadGameObject_bad_header_rejected (env : Env) (s : MMapManagerState)
    (displayId : Nat) (tg : TileFile)
    (htg : env.goFile displayId = some tg)
    (hbad : tg.header.mmapMagic ≠ MMAP_MAGIC ∨ tg.header.mmapVersion ≠ MMAP_VERSION) :
    (∀ a ∈ (loadGameObject env s displayId).actions, usesPayloadSize a = false) ∧
    (findVal s.loadedModels displayId = none →
      (loadGameObject env s displayId).ok = false) := by
  rcases hr : loadGameObject env s displayId with ⟨ok, st, acts⟩
  unfold loadGameObject at hr
  split at hr
  · next hfound =>
      injection hr with hb hs ha
      subst hb
      subst ha
      refine ⟨by simp, fun hnone => ?_⟩
      rw [hnone] at hfound
      simp at hfound
  · next hnfound =>
      split at hr
      · next gOpt heqG =>
          injection hr with hb hs ha
          subst hb
          subst ha
          exact ⟨by simp [usesPayloadSize], fun _ => rfl⟩
      · next gOpt tg0 heqG =>
          split at hr
          · next hmagic =>
              injection hr with hb hs ha
              subst hb
              subst ha
              exact ⟨by simp [usesPayloadSize], fun _ => rfl⟩
          · next hmagic =>
              split at hr
              · next hver =>
                  injection hr with hb hs ha
                  subst hb
                  subst ha
                  exact ⟨by simp [usesPayloadSize], fun _ => rfl⟩
              · next hver =>
                  rw [htg] at heqG
                  injection heqG with htg0
                  subst htg0
                  rcases hbad with hb | hb
                  · exact absurd hb hmagic
                  · exact absurd hb hver

/-- Claim C6: in loadMap and loadGameObject, a tile file whose magic
differs from the reserved constant or whose version differs from the
expected constant is rejected before its payload-size field is used: no
allocation of size bytes and no read of size bytes is attempted on such a
file. -/
theorem bad_header_rejected_before_size (env : Env) (s : MMapManagerState)
    (mapId instanceId : Nat) (x y : Int) (number displayId : Nat) (tf tg : TileFile) :
    (env.tileFile mapId x y number = some tf →
      (tf.header.mmapMagic ≠ MMAP_MAGIC ∨ tf.header.mmapVersion ≠ MMAP_VERSION) →
      (loadMap env s mapId instanceId x y number).ok = false ∧
      ∀ a ∈ (loadMap env s mapId instanceId x y number).actions,
        usesPayloadSize a = false) ∧
    (env.goFile displayId = some tg →
      (tg.header.mmapMagic ≠ MMAP_MAGIC ∨ tg.header.mmapVersion ≠ MMAP_VERSION) →
      (∀ a ∈ (loadGameObject env s displayId).actions, usesPayloadSize a = false) ∧
      (findVal s.loadedModels displayId = none →
        (loadGameObject env s displayId).ok = false)) :=
  ⟨fun htf hbad =>
    loadMap_bad_header_rejected env s mapId instanceId x y number tf htf hbad,
   fun htg hbad =>
    loadGameObject_bad_header_rejected env s displayId tg htg hbad⟩

/-- An environment whose tile and static-model files carry a corrupted
magic number; used as the witness input for claim C6. -/
def envBadMagic : Env where
  mapParamsOk := fun _ => true
  meshOf := fun _ => 0
  tileFile := fun _ _ _ _ => some ⟨⟨0, MMAP_VERSION, 8⟩, true⟩
  addTileRef := fun _ _ _ _ => some 1
  removeTileOk := fun _ => true
  goFile := fun _ => some ⟨⟨0, MMAP_VERSION, 8⟩, true⟩
  goInit := fun _ => some 2

/-- Closed witness for claim C6 on a concrete corrupt-magic file. -/
theorem bad_header_rejected_before_size_witness :
    (loadMap envBadMagic ⟨[], 0, []⟩ 1 0 3 4 0).ok = false ∧
    (loadGameObject envBadMagic ⟨[], 0, []⟩ 12).ok = false :=
  ⟨((bad_header_rejected_before_size envBadMagic ⟨[], 0, []⟩ 1 0 3 4 0 12
      ⟨⟨0, MMAP_VERSION, 8⟩, true⟩ ⟨⟨0, MMAP_VERSION, 8⟩, true⟩).1 rfl
      (Or.inl (by decide))).1,
   ((bad_header_rejected_before_size envBadMagic ⟨[], 0, []⟩ 1 0 3 4 0 12
      ⟨⟨0, MMAP_VERSION, 8⟩, true⟩ ⟨⟨0, MMAP_VERSION, 8⟩, true⟩).2 rfl
      (Or.inl (by decide))).2 rfl⟩

end MMAP
